import Mathlib

/-
Shallow embedding of the fitness-tracker module (src/homework.py).

Modelling conventions:
* Python floats and ints are modelled as exact rationals (ℚ); the formulas
  use only +, -, *, /, ** and floor division, so ℚ is a faithful carrier.
* Python exceptions are modelled explicitly by the PyExc type; a function
  that may raise returns Except PyExc.
* The format specifier .3f of str.format is modelled by formatFixed3:
  round-half-even to 3 fractional digits, always printing exactly three.
* Dynamic dispatch over the class hierarchy (Training and its three
  subclasses) is modelled by the sum type TrainingObj; the class attribute
  LEN_STEP, which Swimming overrides, is a parameter of the inherited
  method bodies.
-/

/-- Exceptions the program can raise or catch, with their message. -/
inductive PyExc
  | valueError : String → PyExc
  | typeError : String → PyExc
  | attributeError : String → PyExc
  | notImplementedError : String → PyExc

/-- The str(ex) text interpolated into the error notice. -/
def PyExc.message : PyExc → String
  | .valueError m => m
  | .typeError m => m
  | .attributeError m => m
  | .notImplementedError m => m

/-- Three decimal digits of n percent 1000, with leading zeros. -/
def padThreeDigits (n : ℕ) : String :=
  String.mk [Nat.digitChar (n / 100 % 10), Nat.digitChar (n / 10 % 10),
    Nat.digitChar (n % 10)]

/-- Round to the nearest integer, ties to even (the rounding of str.format). -/
def roundHalfEven (x : ℚ) : ℤ :=
  if x - ⌊x⌋ = 1 / 2 then (if ⌊x⌋ % 2 = 0 then ⌊x⌋ else ⌊x⌋ + 1) else round x

/-- The format specifier .3f: fixed-point with exactly 3 fractional digits. -/
def formatFixed3 (q : ℚ) : String :=
  (if roundHalfEven (q * 1000) < 0 then "-" else "")
    ++ Nat.repr ((roundHalfEven (q * 1000)).natAbs / 1000)
    ++ "."
    ++ padThreeDigits ((roundHalfEven (q * 1000)).natAbs % 1000)

/-- Class InfoMessage: the computed summary fields of one workout. -/
structure InfoMessage where
  training_type : String
  duration : ℚ
  distance : ℚ
  speed : ℚ
  calories : ℚ

/-- Method InfoMessage.get_message: MSG.format over the fields in order. -/
def InfoMessage.get_message (m : InfoMessage) : String :=
  "Тип тренировки: " ++ m.training_type
    ++ "; Длительность: " ++ formatFixed3 m.duration
    ++ " ч.; Дистанция: " ++ formatFixed3 m.distance
    ++ " км; Ср. скорость: " ++ formatFixed3 m.speed
    ++ " км/ч; Потрачено ккал: " ++ formatFixed3 m.calories ++ "."

/-- Base class Training: the fields set by its constructor. -/
structure Training where
  action : ℚ
  duration_h : ℚ
  weight : ℚ

/-- Class attribute Training.LEN_STEP. -/
def Training.LEN_STEP : ℚ := 0.65

/-- Class attribute Training.M_IN_KM. -/
def Training.M_IN_KM : ℚ := 1000

/-- Class attribute Training.MIN_IN_HOUR. -/
def Training.MIN_IN_HOUR : ℚ := 60

/-- Body of Training.get_distance; lenStep is the dynamically resolved
value of self.LEN_STEP (subclasses may override the class attribute). -/
def Training.get_distance_of (lenStep : ℚ) (self : Training) : ℚ :=
  self.action * lenStep / Training.M_IN_KM

/-- Body of Training.get_mean_speed: get_distance over duration. -/
def Training.get_mean_speed_of (lenStep : ℚ) (self : Training) : ℚ :=
  Training.get_distance_of lenStep self / self.duration_h

/-- Method Training.get_distance on a direct base instance. -/
def Training.get_distance (self : Training) : ℚ :=
  Training.get_distance_of Training.LEN_STEP self

/-- Method Training.get_mean_speed on a direct base instance. -/
def Training.get_mean_speed (self : Training) : ℚ :=
  Training.get_mean_speed_of Training.LEN_STEP self

/-- Method Training.get_spent_calories on a direct base instance: raises
NotImplementedError naming the class (Training for a base instance). -/
def Training.get_spent_calories (_self : Training) : Except PyExc ℚ :=
  Except.error (PyExc.notImplementedError
    ("Метод get_spent_calories не был определен в классе Training"))

/-- Subclass Running: no extra fields. -/
structure Running extends Training

/-- Class attribute Running.CALORIES_MEAN_SPEED_MULTIPLIER_FIRST. -/
def Running.CALORIES_MEAN_SPEED_MULTIPLIER_FIRST : ℚ := 18

/-- Class attribute Running.CALORIES_MEAN_SPEED_MULTIPLIER_SECOND. -/
def Running.CALORIES_MEAN_SPEED_MULTIPLIER_SECOND : ℚ := 20

/-- Running inherits get_distance with LEN_STEP 0.65. -/
def Running.get_distance (self : Running) : ℚ :=
  Training.get_distance_of Training.LEN_STEP self.toTraining

/-- Running inherits get_mean_speed with LEN_STEP 0.65. -/
def Running.get_mean_speed (self : Running) : ℚ :=
  Training.get_mean_speed_of Training.LEN_STEP self.toTraining

/-- Method Running.get_spent_calories. -/
def Running.get_spent_calories (self : Running) : ℚ :=
  (Running.CALORIES_MEAN_SPEED_MULTIPLIER_FIRST * self.get_mean_speed
      - Running.CALORIES_MEAN_SPEED_MULTIPLIER_SECOND)
    * self.weight / Training.M_IN_KM
    * (self.duration_h * Training.MIN_IN_HOUR)

/-- Subclass SportsWalking: adds the height field. -/
structure SportsWalking extends Training where
  height : ℚ

/-- Class attribute SportsWalking.CALORIES_MEAN_SPEED_MULTIPLIER_FIRST. -/
def SportsWalking.CALORIES_MEAN_SPEED_MULTIPLIER_FIRST : ℚ := 0.035

/-- Class attribute SportsWalking.CALORIES_MEAN_SPEED_MULTIPLIER_SECOND. -/
def SportsWalking.CALORIES_MEAN_SPEED_MULTIPLIER_SECOND : ℚ := 0.029

/-- SportsWalking inherits get_distance with LEN_STEP 0.65. -/
def SportsWalking.get_distance (self : SportsWalking) : ℚ :=
  Training.get_distance_of Training.LEN_STEP self.toTraining

/-- SportsWalking inherits get_mean_speed with LEN_STEP 0.65. -/
def SportsWalking.get_mean_speed (self : SportsWalking) : ℚ :=
  Training.get_mean_speed_of Training.LEN_STEP self.toTraining

/-- Method SportsWalking.get_spent_calories; the floor models the float
floor division of speed squared by height in the source. -/
def SportsWalking.get_spent_calories (self : SportsWalking) : ℚ :=
  (SportsWalking.CALORIES_MEAN_SPEED_MULTIPLIER_FIRST * self.weight
      + (⌊self.get_mean_speed ^ 2 / self.height⌋ : ℚ)
        * SportsWalking.CALORIES_MEAN_SPEED_MULTIPLIER_SECOND * self.weight)
    * (self.duration_h * Training.MIN_IN_HOUR)

/-- Subclass Swimming: adds the pool fields. -/
structure Swimming extends Training where
  length_pool_m : ℚ
  count_pool : ℚ

/-- Class attribute Swimming.LEN_STEP: overrides the base value. -/
def Swimming.LEN_STEP : ℚ := 1.38

/-- Class attribute Swimming.CALORIES_MEAN_SPEED_MULTIPLIER_FIRST. -/
def Swimming.CALORIES_MEAN_SPEED_MULTIPLIER_FIRST : ℚ := 1.1

/-- Class attribute Swimming.CALORIES_MEAN_SPEED_MULTIPLIER_SECOND. -/
def Swimming.CALORIES_MEAN_SPEED_MULTIPLIER_SECOND : ℚ := 2.0

/-- Swimming inherits the get_distance body, but self.LEN_STEP now
resolves to the overriding class attribute 1.38. -/
def Swimming.get_distance (self : Swimming) : ℚ :=
  Training.get_distance_of Swimming.LEN_STEP self.toTraining

/-- Method Swimming.get_mean_speed: overrides the base formula. -/
def Swimming.get_mean_speed (self : Swimming) : ℚ :=
  self.length_pool_m * self.count_pool / Training.M_IN_KM / self.duration_h

/-- Method Swimming.get_spent_calories. -/
def Swimming.get_spent_calories (self : Swimming) : ℚ :=
  (self.get_mean_speed + Swimming.CALORIES_MEAN_SPEED_MULTIPLIER_FIRST)
    * Swimming.CALORIES_MEAN_SPEED_MULTIPLIER_SECOND * self.weight

/-- A runtime object of the Training hierarchy, tagged by dynamic class. -/
inductive TrainingObj
  | base : Training → TrainingObj
  | running : Running → TrainingObj
  | walking : SportsWalking → TrainingObj
  | swimming : Swimming → TrainingObj

/-- Expression type(self).__name__ for an object of the hierarchy. -/
def TrainingObj.className : TrainingObj → String
  | .base _ => "Training"
  | .running _ => "Running"
  | .walking _ => "SportsWalking"
  | .swimming _ => "Swimming"

/-- The base fields of any object of the hierarchy. -/
def TrainingObj.toTraining : TrainingObj → Training
  | .base t => t
  | .running r => r.toTraining
  | .walking w => w.toTraining
  | .swimming s => s.toTraining

/-- Dynamically dispatched call self.get_distance(). -/
def TrainingObj.get_distance : TrainingObj → ℚ
  | .base t => t.get_distance
  | .running r => r.get_distance
  | .walking w => w.get_distance
  | .swimming s => s.get_distance

/-- Dynamically dispatched call self.get_mean_speed(). -/
def TrainingObj.get_mean_speed : TrainingObj → ℚ
  | .base t => t.get_mean_speed
  | .running r => r.get_mean_speed
  | .walking w => w.get_mean_speed
  | .swimming s => s.get_mean_speed

/-- Dynamically dispatched call self.get_spent_calories(); only a direct
base instance raises. -/
def TrainingObj.get_spent_calories : TrainingObj → Except PyExc ℚ
  | .base t => t.get_spent_calories
  | .running r => Except.ok r.get_spent_calories
  | .walking w => Except.ok w.get_spent_calories
  | .swimming s => Except.ok s.get_spent_calories

/-- Method Training.show_training_info: builds the InfoMessage from the
dispatched getters; propagates an exception from get_spent_calories. -/
def TrainingObj.show_training_info (t : TrainingObj) : Except PyExc InfoMessage :=
  (t.get_spent_calories).map (fun cal =>
    ⟨t.className, t.toTraining.duration_h, t.get_distance, t.get_mean_speed, cal⟩)

/-- Exception classes named in the except clause of read_package. -/
def readPackageCatches : PyExc → Bool
  | .valueError _ => true
  | .typeError _ => true
  | .attributeError _ => true
  | .notImplementedError _ => false

/-- Call Swimming(*data): arity mismatch raises TypeError. -/
def mkSwimming (data : List ℚ) : Except PyExc TrainingObj :=
  match data with
  | [a, d, w, lp, cp] => Except.ok (.swimming ⟨⟨a, d, w⟩, lp, cp⟩)
  | _ => Except.error (.typeError ("Swimming given wrong number of positional arguments"))

/-- Call Running(*data): arity mismatch raises TypeError. -/
def mkRunning (data : List ℚ) : Except PyExc TrainingObj :=
  match data with
  | [a, d, w] => Except.ok (.running ⟨⟨a, d, w⟩⟩)
  | _ => Except.error (.typeError ("Running given wrong number of positional arguments"))

/-- Call SportsWalking(*data): arity mismatch raises TypeError. -/
def mkWalking (data : List ℚ) : Except PyExc TrainingObj :=
  match data with
  | [a, d, w, h] => Except.ok (.walking ⟨⟨a, d, w⟩, h⟩)
  | _ => Except.error (.typeError ("SportsWalking given wrong number of positional arguments"))

/-- The dict training_type looked up with .get: None when absent. -/
def training_type_map (workout_type : String) :
    Option (List ℚ → Except PyExc TrainingObj) :=
  if workout_type = "SWM" then some mkSwimming
  else if workout_type = "RUN" then some mkRunning
  else if workout_type = "WLK" then some mkWalking
  else none

/-- Call the looked-up class on data; calling None raises TypeError. -/
def callOptionalClass (cls : Option (List ℚ → Except PyExc TrainingObj))
    (data : List ℚ) : Except PyExc TrainingObj :=
  match cls with
  | none => Except.error (.typeError ("NoneType object is not callable"))
  | some ctor => ctor data

/-- The line printed by the except branch of read_package. -/
def errorNotice (ex : PyExc) : String :=
  "Сегодня останешься без тренировки, прости, но делать нечего - у нас ошибка: "
    ++ ex.message

/-- Function read_package: on success returns the object and prints
nothing; a caught exception prints the notice and falls through to the
implicit return None; an uncaught exception propagates. -/
def read_package (workout_type : String) (data : List ℚ) :
    Except PyExc (Option TrainingObj × List String) :=
  match callOptionalClass (training_type_map workout_type) data with
  | .ok t => Except.ok (some t, [])
  | .error ex =>
    if readPackageCatches ex then Except.ok (none, [errorNotice ex])
    else Except.error ex

/-- Function main: attribute access on None raises AttributeError;
otherwise prints the rendered message. -/
def Homework.main (training : Option TrainingObj) : Except PyExc (List String) :=
  match training with
  | none => Except.error (.attributeError
      ("NoneType object has no attribute show_training_info"))
  | some t => (t.show_training_info).map (fun info => [info.get_message])

/-- The driver loop over the batch: returns the lines printed before any
uncaught exception, and that exception when one escapes. -/
def runBatch : List (String × List ℚ) → List String × Option PyExc
  | [] => ([], none)
  | (workout_type, data) :: rest =>
    match read_package workout_type data with
    | .error ex => ([], some ex)
    | .ok (tr, printed) =>
      match Homework.main tr with
      | .error ex => (printed, some ex)
      | .ok out =>
        let next := runBatch rest
        (printed ++ out ++ next.1, next.2)

/-- The literal batch of the driver, including the deliberate bad entry. -/
def packages : List (String × List ℚ) :=
  [("SWM", [720, 1, 80, 25, 40]),
   ("RUN", [15000, 1, 75]),
   ("WLK", [9000, 1, 75, 180]),
   ("GGR", [88, 2, 0])]

/-- A method call as seen by the caller: result plus the instance as it is
after the call (the source method bodies contain no assignment, so the
instance is returned unchanged). -/
def TrainingObj.get_distance_call (self : TrainingObj) : ℚ × TrainingObj :=
  (self.get_distance, self)

/-- Stateful view of get_mean_speed, as for get_distance_call. -/
def TrainingObj.get_mean_speed_call (self : TrainingObj) : ℚ × TrainingObj :=
  (self.get_mean_speed, self)

/-- Stateful view of get_spent_calories, as for get_distance_call. -/
def TrainingObj.get_spent_calories_call (self : TrainingObj) :
    Except PyExc ℚ × TrainingObj :=
  (self.get_spent_calories, self)

/-- Claim C4: every variant computes get_distance as action times the
variant step length over 1000: 0.65 for Running and SportsWalking, 1.38
for Swimming. -/
theorem claim_C4_distance :
    (∀ r : Running, r.get_distance = r.action * 0.65 / 1000)
    ∧ (∀ w : SportsWalking, w.get_distance = w.action * 0.65 / 1000)
    ∧ (∀ s : Swimming, s.get_distance = s.action * 1.38 / 1000) :=
  ⟨fun _ => rfl, fun _ => rfl, fun _ => rfl⟩

/-- Claim C5: Swimming mean speed is pool length times laps over 1000 over
duration, unchanged under any change of the action count, while Running
and SportsWalking use distance over duration. -/
theorem claim_C5_mean_speed :
    (∀ s : Swimming,
      s.get_mean_speed = s.length_pool_m * s.count_pool / 1000 / s.duration_h)
    ∧ (∀ (s : Swimming) (a : ℚ),
      (Swimming.mk ⟨a, s.duration_h, s.weight⟩ s.length_pool_m
          s.count_pool).get_mean_speed = s.get_mean_speed)
    ∧ (∀ r : Running, r.get_mean_speed = r.get_distance / r.duration_h)
    ∧ (∀ w : SportsWalking, w.get_mean_speed = w.get_distance / w.duration_h) :=
  ⟨fun _ => rfl, fun _ _ => rfl, fun _ => rfl, fun _ => rfl⟩

/-- Claim C6: SportsWalking calories follow the stated formula, with the
floor applied exactly to the sub-term speed squared over height and exact
division everywhere else. -/
theorem claim_C6_walking_formula :
    ∀ w : SportsWalking,
      w.get_spent_calories
        = (0.035 * w.weight
            + (⌊w.get_mean_speed ^ 2 / w.height⌋ : ℚ) * 0.029 * w.weight)
          * (w.duration_h * 60) :=
  fun _ => rfl

/-- Claim C9: each getter, viewed as a method call returning a result and
the post-call instance, returns the instance unchanged, and a repeated
call yields the identical result. -/
theorem claim_C9_idempotent :
    ∀ t : TrainingObj,
      (t.get_distance_call.2.get_distance_call.1 = t.get_distance_call.1
        ∧ t.get_distance_call.2.get_distance_call.2 = t)
      ∧ (t.get_mean_speed_call.2.get_mean_speed_call.1 = t.get_mean_speed_call.1
        ∧ t.get_mean_speed_call.2.get_mean_speed_call.2 = t)
      ∧ (t.get_spent_calories_call.2.get_spent_calories_call.1
            = t.get_spent_calories_call.1
        ∧ t.get_spent_calories_call.2.get_spent_calories_call.2 = t) :=
  fun _ => ⟨⟨rfl, rfl⟩, ⟨rfl, rfl⟩, ⟨rfl, rfl⟩⟩

/-- Claim C1 fails on the code: in the shipped batch the driver ends with
an uncaught AttributeError, and with a bad entry first the following good
entry is never processed — only the notice is printed before the driver
aborts, because main is called on the None that read_package returned. -/
theorem claim_C1_driver_aborts :
    (runBatch packages).2
      = some (PyExc.attributeError
          ("NoneType object has no attribute show_training_info"))
    ∧ runBatch [("GGR", [88, 2, 0]), ("RUN", [15000, 1, 75])]
      = (["Сегодня останешься без тренировки, прости, но делать нечего - у нас ошибка: NoneType object is not callable"],
         some (PyExc.attributeError
           ("NoneType object has no attribute show_training_info"))) :=
  ⟨rfl, rfl⟩

/-- Helper: the three summary values of the RUN example object. -/
theorem running_example_eval :
    (Running.mk (Training.mk 15000 1 75)).get_distance = 9.75
    ∧ (Running.mk (Training.mk 15000 1 75)).get_mean_speed = 9.75
    ∧ (Running.mk (Training.mk 15000 1 75)).get_spent_calories = 699.75 := by
  refine ⟨?_, ?_, ?_⟩
  · norm_num [Running.get_distance, Training.get_distance_of,
      Training.LEN_STEP, Training.M_IN_KM]
  · norm_num [Running.get_mean_speed, Training.get_mean_speed_of,
      Training.get_distance_of, Training.LEN_STEP, Training.M_IN_KM]
  · norm_num [Running.get_spent_calories, Running.get_mean_speed,
      Training.get_mean_speed_of, Training.get_distance_of,
      Running.CALORIES_MEAN_SPEED_MULTIPLIER_FIRST,
      Running.CALORIES_MEAN_SPEED_MULTIPLIER_SECOND,
      Training.LEN_STEP, Training.M_IN_KM, Training.MIN_IN_HOUR]

/-- Claim C2 counterexample: on the RUN example the computed calories are
not 694.575 (they are 699.75). -/
theorem claim_C2_counterexample :
    ¬ (Running.mk (Training.mk 15000 1 75)).get_spent_calories = 694.575 := by
  intro h
  rw [running_example_eval.2.2] at h
  norm_num at h

/-- Claim C2 as amended: for the input RUN with readings 15000, 1, 75 the
dispatcher builds this Running object, whose distance is 9.75 km, mean
speed 9.75 km per h, and calories 699.75 by the stated formula. -/
theorem claim_C2_amended :
    read_package ("RUN") [15000, 1, 75]
      = Except.ok
          (some (TrainingObj.running (Running.mk (Training.mk 15000 1 75))), [])
    ∧ (Running.mk (Training.mk 15000 1 75)).get_distance = 9.75
    ∧ (Running.mk (Training.mk 15000 1 75)).get_mean_speed = 9.75
    ∧ (Running.mk (Training.mk 15000 1 75)).get_spent_calories = 699.75 :=
  ⟨rfl, running_example_eval.1, running_example_eval.2.1,
    running_example_eval.2.2⟩

/-- Claim C7: the WLK example yields distance 5.85, speed 5.85 and
calories 157.5 (the floored sub-term vanishes), and the SWM example yields
speed 1, distance 0.9936 and calories 336. -/
theorem claim_C7_examples :
    (SportsWalking.mk (Training.mk 9000 1 75) 180).get_distance = 5.85
    ∧ (SportsWalking.mk (Training.mk 9000 1 75) 180).get_mean_speed = 5.85
    ∧ (SportsWalking.mk (Training.mk 9000 1 75) 180).get_spent_calories = 157.5
    ∧ (Swimming.mk (Training.mk 720 1 80) 25 40).get_mean_speed = 1
    ∧ (Swimming.mk (Training.mk 720 1 80) 25 40).get_distance = 0.9936
    ∧ (Swimming.mk (Training.mk 720 1 80) 25 40).get_spent_calories = 336 := by
  have hs : (SportsWalking.mk (Training.mk 9000 1 75) 180).get_mean_speed
      = 5.85 := by
    norm_num [SportsWalking.get_mean_speed, Training.get_mean_speed_of,
      Training.get_distance_of, Training.LEN_STEP, Training.M_IN_KM]
  have hf : (⌊(SportsWalking.mk (Training.mk 9000 1 75) 180).get_mean_speed
      ^ 2 / (180 : ℚ)⌋ : ℤ) = 0 := by
    rw [hs]
    norm_num [Int.floor_eq_iff]
  refine ⟨?_, hs, ?_, ?_, ?_, ?_⟩
  · norm_num [SportsWalking.get_distance, Training.get_distance_of,
      Training.LEN_STEP, Training.M_IN_KM]
  · rw [SportsWalking.get_spent_calories]
    rw [show (SportsWalking.mk (Training.mk 9000 1 75) 180).height
        = (180 : ℚ) from rfl]
    rw [hf]
    norm_num [SportsWalking.CALORIES_MEAN_SPEED_MULTIPLIER_FIRST,
      SportsWalking.CALORIES_MEAN_SPEED_MULTIPLIER_SECOND,
      Training.MIN_IN_HOUR]
  · norm_num [Swimming.get_mean_speed, Training.M_IN_KM]
  · norm_num [Swimming.get_distance, Training.get_distance_of,
      Swimming.LEN_STEP, Training.M_IN_KM]
  · norm_num [Swimming.get_spent_calories, Swimming.get_mean_speed,
      Swimming.CALORIES_MEAN_SPEED_MULTIPLIER_FIRST,
      Swimming.CALORIES_MEAN_SPEED_MULTIPLIER_SECOND, Training.M_IN_KM]

/-- Helper: rounding an exact integer value returns it unchanged. -/
theorem roundHalfEven_intCast (n : ℤ) : roundHalfEven (n : ℚ) = n := by
  unfold roundHalfEven
  rw [Int.floor_intCast, sub_self]
  rw [if_neg (by norm_num : ¬ ((0 : ℚ) = 1 / 2)), round_intCast]

/-- Helper: formatFixed3 on a value whose thousandfold is the integer n. -/
theorem formatFixed3_intCast (q : ℚ) (n : ℤ) (h : q * 1000 = (n : ℚ)) :
    formatFixed3 q
      = (if n < 0 then "-" else "") ++ Nat.repr (n.natAbs / 1000) ++ "."
          ++ padThreeDigits (n.natAbs % 1000) := by
  unfold formatFixed3
  rw [h, roundHalfEven_intCast]

/-- Helper: the formatted duration of the Running example line. -/
theorem formatFixed3_one : formatFixed3 1 = "1.000" := by
  rw [formatFixed3_intCast 1 1000 (by norm_num)]
  rfl

/-- Helper: the formatted distance and speed of the Running example line. -/
theorem formatFixed3_975 : formatFixed3 9.75 = "9.750" := by
  rw [formatFixed3_intCast 9.75 9750 (by norm_num)]
  rfl

/-- Helper: the formatted calories of the Running example line. -/
theorem formatFixed3_69975 : formatFixed3 699.75 = "699.750" := by
  rw [formatFixed3_intCast 699.75 699750 (by norm_num)]
  rfl

/-- Helper: a digit below ten renders as a digit character. -/
theorem digitChar_isDigit : ∀ d < 10, (Nat.digitChar d).isDigit = true := by
  decide

/-- Claim C3 counterexample: the record of the Running example does not
render to the Training-type line the claim states; the template of the
code is the Russian one. -/
theorem claim_C3_counterexample :
    ¬ (InfoMessage.mk ("Running") 1 9.75 9.75 699.75).get_message
        = "Training type: Running; Duration: 1.000 h; Distance: 9.750 km; Avg speed: 9.750 km/h; Calories burned: 699.750." := by
  intro h
  simp only [InfoMessage.get_message, formatFixed3_one, formatFixed3_975,
    formatFixed3_69975] at h
  exact absurd h (by decide)

/-- Claim C3 as amended: get_message renders the fields into the fixed
Russian template of the code, and every numeric field is printed with a
point followed by exactly three digit characters. -/
theorem claim_C3_amended :
    (∀ m : InfoMessage,
      m.get_message
        = "Тип тренировки: " ++ m.training_type
          ++ "; Длительность: " ++ formatFixed3 m.duration
          ++ " ч.; Дистанция: " ++ formatFixed3 m.distance
          ++ " км; Ср. скорость: " ++ formatFixed3 m.speed
          ++ " км/ч; Потрачено ккал: " ++ formatFixed3 m.calories ++ ".")
    ∧ (∀ q : ℚ, ∃ whole frac : String,
        formatFixed3 q = whole ++ "." ++ frac
        ∧ frac.length = 3
        ∧ ∀ c ∈ frac.data, c.isDigit = true) := by
  constructor
  · intro m
    rfl
  · intro q
    refine ⟨(if roundHalfEven (q * 1000) < 0 then "-" else "")
        ++ Nat.repr ((roundHalfEven (q * 1000)).natAbs / 1000),
      padThreeDigits ((roundHalfEven (q * 1000)).natAbs % 1000), ?_, rfl, ?_⟩
    · unfold formatFixed3
      simp only [String.append_assoc]
    · intro c hc
      have hc2 : c ∈
          [Nat.digitChar ((roundHalfEven (q * 1000)).natAbs % 1000 / 100 % 10),
           Nat.digitChar ((roundHalfEven (q * 1000)).natAbs % 1000 / 10 % 10),
           Nat.digitChar ((roundHalfEven (q * 1000)).natAbs % 1000 % 10)] := hc
      simp only [List.mem_cons, List.not_mem_nil, or_false] at hc2
      rcases hc2 with h1 | h1 | h1 <;>
        · rw [h1]
          exact digitChar_isDigit _ (Nat.mod_lt _ (by norm_num))

/-- Helper: a successful Swimming construction yields an object whose
calorie computation succeeds. -/
theorem mkSwimming_ok (data : List ℚ) (t : TrainingObj)
    (h : mkSwimming data = Except.ok t) :
    ∃ q : ℚ, t.get_spent_calories = Except.ok q := by
  unfold mkSwimming at h
  split at h
  · cases h
    exact ⟨_, rfl⟩
  · exact Except.noConfusion h

/-- Helper: a successful Running construction yields an object whose
calorie computation succeeds. -/
theorem mkRunning_ok (data : List ℚ) (t : TrainingObj)
    (h : mkRunning data = Except.ok t) :
    ∃ q : ℚ, t.get_spent_calories = Except.ok q := by
  unfold mkRunning at h
  split at h
  · cases h
    exact ⟨_, rfl⟩
  · exact Except.noConfusion h

/-- Helper: a successful SportsWalking construction yields an object whose
calorie computation succeeds. -/
theorem mkWalking_ok (data : List ℚ) (t : TrainingObj)
    (h : mkWalking data = Except.ok t) :
    ∃ q : ℚ, t.get_spent_calories = Except.ok q := by
  unfold mkWalking at h
  split at h
  · cases h
    exact ⟨_, rfl⟩
  · exact Except.noConfusion h

/-- Helper: any object the dispatcher hands back computes its calories
without raising. -/
theorem read_package_ok_calories (workout_type : String) (data : List ℚ)
    (obj : TrainingObj) (printed : List String)
    (h : read_package workout_type data = Except.ok (some obj, printed)) :
    ∃ q : ℚ, obj.get_spent_calories = Except.ok q := by
  unfold read_package at h
  split at h
  · rename_i t heq
    simp only [Except.ok.injEq, Prod.mk.injEq, Option.some.injEq] at h
    obtain ⟨h1, -⟩ := h
    subst h1
    unfold callOptionalClass at heq
    split at heq
    · exact Except.noConfusion heq
    · rename_i ctor hmap
      unfold training_type_map at hmap
      split at hmap
      · cases hmap
        exact mkSwimming_ok data t heq
      · split at hmap
        · cases hmap
          exact mkRunning_ok data t heq
        · split at hmap
          · cases hmap
            exact mkWalking_ok data t heq
          · exact Option.noConfusion hmap
  · rename_i ex heq
    split at h
    · simp only [Except.ok.injEq, Prod.mk.injEq] at h
      exact absurd h.1 (by simp)
    · exact Except.noConfusion h

/-- Claim C8: the abstract base raises NotImplementedError; that class is
not in the except clause of read_package; main propagates it fatally when
called on a direct base instance; and the dispatcher only ever returns
objects whose calorie computation succeeds. -/
theorem claim_C8_not_implemented :
    (∀ t : Training, t.get_spent_calories
        = Except.error (PyExc.notImplementedError
            ("Метод get_spent_calories не был определен в классе Training")))
    ∧ (∀ msg : String,
        readPackageCatches (PyExc.notImplementedError msg) = false)
    ∧ (∀ t : Training, Homework.main (some (TrainingObj.base t))
        = Except.error (PyExc.notImplementedError
            ("Метод get_spent_calories не был определен в классе Training")))
    ∧ (∀ (workout_type : String) (data : List ℚ) (obj : TrainingObj)
        (printed : List String),
        read_package workout_type data = Except.ok (some obj, printed)
        → ∃ q : ℚ, obj.get_spent_calories = Except.ok q) :=
  ⟨fun _ => rfl, fun _ => rfl, fun _ => rfl, read_package_ok_calories⟩

/-- Claim C8 witness: the dispatcher output for the RUN example computes
its calories without raising. -/
theorem claim_C8_witness :
    ∃ q : ℚ, (TrainingObj.running
        (Running.mk (Training.mk 15000 1 75))).get_spent_calories
      = Except.ok q :=
  claim_C8_not_implemented.2.2.2 ("RUN") [15000, 1, 75]
    (TrainingObj.running (Running.mk (Training.mk 15000 1 75))) [] rfl

/-- Helper: Swimming called with the wrong number of readings raises the
arity TypeError. -/
theorem mkSwimming_arity (data : List ℚ) (h : data.length ≠ 5) :
    mkSwimming data = Except.error (PyExc.typeError
      ("Swimming given wrong number of positional arguments")) := by
  unfold mkSwimming
  split
  · rename_i a d w lp cp
    simp at h
  · rfl

/-- Helper: Running called with the wrong number of readings raises the
arity TypeError. -/
theorem mkRunning_arity (data : List ℚ) (h : data.length ≠ 3) :
    mkRunning data = Except.error (PyExc.typeError
      ("Running given wrong number of positional arguments")) := by
  unfold mkRunning
  split
  · rename_i a d w
    simp at h
  · rfl

/-- Helper: SportsWalking called with the wrong number of readings raises
the arity TypeError. -/
theorem mkWalking_arity (data : List ℚ) (h : data.length ≠ 4) :
    mkWalking data = Except.error (PyExc.typeError
      ("SportsWalking given wrong number of positional arguments")) := by
  unfold mkWalking
  split
  · rename_i a d w ht
    simp at h
  · rfl

/-- Claim C10: for an unknown code, or a known code with readings of the
wrong arity, read_package raises nothing to its caller, prints exactly one
error notice, and returns None rather than an error value. -/
theorem claim_C10_read_package_none (workout_type : String) (data : List ℚ)
    (h : (workout_type ≠ "SWM" ∧ workout_type ≠ "RUN" ∧ workout_type ≠ "WLK")
      ∨ (workout_type = "SWM" ∧ data.length ≠ 5)
      ∨ (workout_type = "RUN" ∧ data.length ≠ 3)
      ∨ (workout_type = "WLK" ∧ data.length ≠ 4)) :
    ∃ notice : String,
      read_package workout_type data = Except.ok (none, [notice]) := by
  rcases h with ⟨h1, h2, h3⟩ | ⟨rfl, h5⟩ | ⟨rfl, h5⟩ | ⟨rfl, h5⟩
  · have hm : training_type_map workout_type = none := by
      unfold training_type_map
      rw [if_neg h1, if_neg h2, if_neg h3]
    refine ⟨errorNotice (PyExc.typeError ("NoneType object is not callable")), ?_⟩
    unfold read_package
    rw [hm]
    rfl
  · refine ⟨errorNotice (PyExc.typeError
      ("Swimming given wrong number of positional arguments")), ?_⟩
    unfold read_package
    have hcall : callOptionalClass (training_type_map ("SWM")) data
        = mkSwimming data := rfl
    rw [hcall, mkSwimming_arity data h5]
    rfl
  · refine ⟨errorNotice (PyExc.typeError
      ("Running given wrong number of positional arguments")), ?_⟩
    unfold read_package
    have hcall : callOptionalClass (training_type_map ("RUN")) data
        = mkRunning data := rfl
    rw [hcall, mkRunning_arity data h5]
    rfl
  · refine ⟨errorNotice (PyExc.typeError
      ("SportsWalking given wrong number of positional arguments")), ?_⟩
    unfold read_package
    have hcall : callOptionalClass (training_type_map ("WLK")) data
        = mkWalking data := rfl
    rw [hcall, mkWalking_arity data h5]
    rfl

/-- Claim C10 witness: the unknown code of the shipped batch makes
read_package return None with one printed notice and no exception. -/
theorem claim_C10_witness :
    ∃ notice : String,
      read_package ("GGR") [88, 2, 0] = Except.ok (none, [notice]) :=
  claim_C10_read_package_none ("GGR") [88, 2, 0]
    (Or.inl ⟨by decide, by decide, by decide⟩)
